import Mathlib

/-!
Verification of the Transmission middleware core against its
natural-language specification.  Each Lean definition below is a shallow
embedding of a function of the Python source tree (file and symbol named
in the doc comment); machine reals are modelled as rationals, dates as
integer day ordinals, and effectful methods as explicit state-passing
functions.
-/

namespace Transmission

/-- Gear states of the transmission state machine
(`transmission/orchestrator/gear_state.py`, class `GearState`). -/
inductive GearState where
  | PARK
  | REVERSE
  | NEUTRAL
  | DRIVE
  | LOW
deriving DecidableEq, Repr

/-- Reasons returned by `determine_gear`.  The Python source produces
formatted strings; each constructor stands for one distinct message
template, carrying the numeric values interpolated into it, so that two
calls produce equal reasons exactly when the source would produce the
same message. -/
inductive LowReason where
  | lossStreak (n : Nat)
  | highVolatility (p : ℚ)
  | mentalState (m : Int)
  | dllLow (d : ℚ)
deriving DecidableEq, Repr

/-- Reason value attached to a gear determination
(`gear_state.py`, `GearStateMachine.determine_gear` return messages). -/
inductive GearReason where
  | killSwitch
  | tripwire
  | dailyLossLimit (r : ℚ)
  | weeklyLossLimit (r : ℚ)
  | maxDrawdown (d : ℚ)
  | recoveryMode (r : ℚ)
  | recovered (r : ℚ)
  | stillInRecovery
  | outsideSession
  | newsBlackout
  | regimeNoTrade
  | lowGear (rs : List LowReason)
  | allNominal
deriving DecidableEq, Repr

/-- Context used to determine gear state
(`gear_state.py`, dataclass `GearContext`). -/
structure GearContext where
  daily_r : ℚ
  weekly_r : ℚ
  consecutive_losses : Nat
  current_drawdown : ℚ
  regime : String
  volatility_percentile : ℚ
  mental_state : Int
  dll_remaining : ℚ
  tripwire_active : Bool
  in_trading_session : Bool
  news_blackout_active : Bool
  kill_switch_active : Bool
  positions_open : Nat
deriving DecidableEq, Repr

/-- Threshold configuration of the gear machine
(`gear_state.py`, the `self.config` dict set in `GearStateMachine.__init__`). -/
structure GearConfig where
  park_daily_r_limit : ℚ := -2
  park_weekly_r_limit : ℚ := -5
  park_drawdown_limit : ℚ := -(10/100)
  reverse_daily_r_trigger : ℚ := -(3/2)
  reverse_exit_daily_r : ℚ := -(1/2)
  low_loss_streak : Nat := 2
  low_volatility_percentile : ℚ := 8/10
  low_mental_state : Int := 3
  low_dll_remaining : ℚ := 3/10
deriving DecidableEq, Repr

/-- List of reasons accumulated by the LOW-gear branch of `determine_gear`
(`gear_state.py` lines 190-206): each applicable condition appends its
message, in source order. -/
def lowReasons (cfg : GearConfig) (ctx : GearContext) : List LowReason :=
  (if ctx.consecutive_losses ≥ cfg.low_loss_streak then
    [LowReason.lossStreak ctx.consecutive_losses] else [])
  ++ (if ctx.volatility_percentile ≥ cfg.low_volatility_percentile then
    [LowReason.highVolatility ctx.volatility_percentile] else [])
  ++ (if ctx.mental_state < cfg.low_mental_state then
    [LowReason.mentalState ctx.mental_state] else [])
  ++ (if ctx.dll_remaining < cfg.low_dll_remaining then
    [LowReason.dllLow ctx.dll_remaining] else [])

/-- Shallow embedding of `GearStateMachine.determine_gear`
(`gear_state.py` lines 137-209).  The Python method reads
`self.current_gear` in its REVERSE-exit branch, so the machine's current
gear is an explicit argument here; the cascade of early returns is the
same priority order as the source. -/
def determine_gear (cfg : GearConfig) (current_gear : GearState)
    (ctx : GearContext) : GearState × GearReason :=
  if ctx.kill_switch_active then (GearState.PARK, GearReason.killSwitch)
  else if ctx.tripwire_active then (GearState.PARK, GearReason.tripwire)
  else if ctx.daily_r ≤ cfg.park_daily_r_limit then
    (GearState.PARK, GearReason.dailyLossLimit ctx.daily_r)
  else if ctx.weekly_r ≤ cfg.park_weekly_r_limit then
    (GearState.PARK, GearReason.weeklyLossLimit ctx.weekly_r)
  else if ctx.current_drawdown ≤ cfg.park_drawdown_limit then
    (GearState.PARK, GearReason.maxDrawdown ctx.current_drawdown)
  else if ctx.daily_r ≤ cfg.reverse_daily_r_trigger then
    (GearState.REVERSE, GearReason.recoveryMode ctx.daily_r)
  else if current_gear = GearState.REVERSE then
    (if ctx.daily_r ≥ cfg.reverse_exit_daily_r then
      (GearState.DRIVE, GearReason.recovered ctx.daily_r)
    else
      (GearState.REVERSE, GearReason.stillInRecovery))
  else if ¬ ctx.in_trading_session then
    (GearState.NEUTRAL, GearReason.outsideSession)
  else if ctx.news_blackout_active then
    (GearState.NEUTRAL, GearReason.newsBlackout)
  else if ctx.regime = "NOTRADE" then
    (GearState.NEUTRAL, GearReason.regimeNoTrade)
  else if lowReasons cfg ctx ≠ [] then
    (GearState.LOW, GearReason.lowGear (lowReasons cfg ctx))
  else
    (GearState.DRIVE, GearReason.allNominal)

/-- Record of a gear change (`gear_state.py`, dataclass `GearShift`);
the context snapshot keeps the six fields the source copies. -/
structure GearShiftRec where
  timestamp : Nat
  from_gear : GearState
  to_gear : GearState
  reason : GearReason
  snap_daily_r : ℚ
  snap_weekly_r : ℚ
  snap_consecutive_losses : Nat
  snap_regime : String
  snap_mental_state : Int
  snap_volatility_percentile : ℚ
deriving DecidableEq, Repr

/-- Row persisted by `database.log_gear_shift` (`gear_state.py` lines
245-264): all sixteen keyword arguments of that call. -/
structure GearShiftDbRow where
  from_gear : GearState
  to_gear : GearState
  reason : GearReason
  daily_r : ℚ
  weekly_r : ℚ
  consecutive_losses : Nat
  current_drawdown : ℚ
  regime : String
  volatility_percentile : ℚ
  mental_state : Int
  dll_remaining : ℚ
  tripwire_active : Bool
  in_trading_session : Bool
  news_blackout_active : Bool
  kill_switch_active : Bool
  positions_open : Nat
deriving DecidableEq, Repr

/-- Message sent by `broadcast_gear_change` (`gear_state.py` lines
269-283): from, to, reason plus the three-field context dict. -/
structure GearBroadcastMsg where
  from_gear : GearState
  to_gear : GearState
  reason : GearReason
  daily_r : ℚ
  weekly_r : ℚ
  consecutive_losses : Nat
deriving DecidableEq, Repr

/-- Mutable state of a `GearStateMachine` instance plus its two effect
sinks: `dbLog` records calls to `database.log_gear_shift` (made only when
`database` is set) and `broadcasts` records calls to
`broadcast_gear_change` (made only when a websocket manager is set). -/
structure GearMachine where
  cfg : GearConfig
  current_gear : GearState
  shift_history : List GearShiftRec
  hasDatabase : Bool
  dbLog : List GearShiftDbRow
  hasWebsocket : Bool
  broadcasts : List GearBroadcastMsg
deriving DecidableEq, Repr

/-- Shallow embedding of `GearStateMachine.shift` (`gear_state.py` lines
211-292).  `ts` stands for `datetime.now`.  On a state change it builds the
`GearShift`, logs to the database collaborator if present, broadcasts if a
websocket manager is present, updates `current_gear`, appends to the
history and truncates it to the last 100 entries; otherwise it only
returns the current gear and the determination reason. -/
def GearMachine.shift (m : GearMachine) (ctx : GearContext) (ts : Nat) :
    (GearState × GearReason) × GearMachine :=
  let res := determine_gear m.cfg m.current_gear ctx
  let new_gear := res.1
  let reason := res.2
  if new_gear ≠ m.current_gear then
    let shiftRec : GearShiftRec :=
      { timestamp := ts, from_gear := m.current_gear, to_gear := new_gear,
        reason := reason, snap_daily_r := ctx.daily_r,
        snap_weekly_r := ctx.weekly_r,
        snap_consecutive_losses := ctx.consecutive_losses,
        snap_regime := ctx.regime, snap_mental_state := ctx.mental_state,
        snap_volatility_percentile := ctx.volatility_percentile }
    let dbRow : GearShiftDbRow :=
      { from_gear := m.current_gear, to_gear := new_gear,
        reason := reason, daily_r := ctx.daily_r,
        weekly_r := ctx.weekly_r,
        consecutive_losses := ctx.consecutive_losses,
        current_drawdown := ctx.current_drawdown, regime := ctx.regime,
        volatility_percentile := ctx.volatility_percentile,
        mental_state := ctx.mental_state,
        dll_remaining := ctx.dll_remaining,
        tripwire_active := ctx.tripwire_active,
        in_trading_session := ctx.in_trading_session,
        news_blackout_active := ctx.news_blackout_active,
        kill_switch_active := ctx.kill_switch_active,
        positions_open := ctx.positions_open }
    let wsMsg : GearBroadcastMsg :=
      { from_gear := m.current_gear, to_gear := new_gear,
        reason := reason, daily_r := ctx.daily_r,
        weekly_r := ctx.weekly_r,
        consecutive_losses := ctx.consecutive_losses }
    let dbLog := if m.hasDatabase then m.dbLog ++ [dbRow] else m.dbLog
    let broadcasts :=
      if m.hasWebsocket then m.broadcasts ++ [wsMsg] else m.broadcasts
    let history := m.shift_history ++ [shiftRec]
    let history :=
      if history.length > 100 then
        history.drop (history.length - 100)
      else history
    ((new_gear, reason),
      { m with
        current_gear := new_gear, shift_history := history,
        dbLog := dbLog, broadcasts := broadcasts })
  else
    ((m.current_gear, reason), m)

/-- Action field of a tripwire result
(`transmission/risk/governor.py`, `TripwireResult.action`). -/
inductive TripAction where
  | TRADE
  | FLAT
  | PAUSE
deriving DecidableEq, Repr

/-- Reason messages produced by `RiskGovernor.check_tripwires`; one
constructor per formatted-string template of the source, carrying the
interpolated values. -/
inductive TripReason where
  | dailyLimitHit (pnl lim : ℚ)
  | weeklyLimitHit (pnl lim : ℚ)
  | redDaysHit (n lim : Nat)
  | allClear
deriving DecidableEq, Repr

/-- Result of a risk tripwire check (`governor.py`, dataclass
`TripwireResult`). -/
structure TripwireResult where
  can_trade : Bool
  reason : TripReason
  action : TripAction
  daily_pnl_r : ℚ
  weekly_pnl_r : ℚ
  consecutive_red_days : Nat
deriving DecidableEq, Repr

/-- Performance metrics for scaling decisions (`governor.py`, dataclass
`PerformanceMetrics`). -/
structure PerformanceMetrics where
  profit_factor : ℚ
  expected_r : ℚ
  win_rate : ℚ
  max_drawdown_r : ℚ
  current_drawdown_r : ℚ
  rule_breaks : Nat
  total_trades : Nat
deriving DecidableEq, Repr

/-- Mutable state of a `RiskGovernor` instance (`governor.py`,
`RiskGovernor.__init__`): limits plus the persisted counters.  Dates are
integer day ordinals and week starts integer week ordinals. -/
structure RiskGovernor where
  current_r : ℚ
  daily_limit_r : ℚ := -2
  weekly_limit_r : ℚ := -5
  max_red_days : Nat := 3
  daily_pnl_r : ℚ := 0
  weekly_pnl_r : ℚ := 0
  consecutive_red_days : Nat := 0
  last_trade_date : Option Int := none
  week_start : Option Int := none
deriving DecidableEq, Repr

/-- Shallow embedding of `RiskGovernor.check_tripwires` (`governor.py`
lines 203-272).  `today` stands for `datetime.now().date()` and
`weekStartNow` for `self._get_week_start()`.  First the daily and weekly
rollovers mutate the counters, then the three checks run in source order
(daily limit, weekly limit, consecutive red days); the method returns the
`TripwireResult` and the updated state. -/
def check_tripwires (g : RiskGovernor) (today weekStartNow : Int) :
    TripwireResult × RiskGovernor :=
  let g1 :=
    match g.last_trade_date with
    | none =>
      { g with daily_pnl_r := 0, last_trade_date := some today }
    | some d =>
      if d ≠ today then
        let red := if g.daily_pnl_r < 0 then g.consecutive_red_days + 1 else 0
        { g with
          consecutive_red_days := red, daily_pnl_r := 0,
          last_trade_date := some today }
      else g
  let g2 :=
    match g1.week_start with
    | none => { g1 with weekly_pnl_r := 0, week_start := some weekStartNow }
    | some w =>
      if weekStartNow > w then
        { g1 with weekly_pnl_r := 0, week_start := some weekStartNow }
      else g1
  if g2.daily_pnl_r ≤ g2.daily_limit_r then
    ({ can_trade := false,
       reason := TripReason.dailyLimitHit g2.daily_pnl_r g2.daily_limit_r,
       action := TripAction.FLAT, daily_pnl_r := g2.daily_pnl_r,
       weekly_pnl_r := g2.weekly_pnl_r,
       consecutive_red_days := g2.consecutive_red_days }, g2)
  else if g2.weekly_pnl_r ≤ g2.weekly_limit_r then
    ({ can_trade := false,
       reason := TripReason.weeklyLimitHit g2.weekly_pnl_r g2.weekly_limit_r,
       action := TripAction.FLAT, daily_pnl_r := g2.daily_pnl_r,
       weekly_pnl_r := g2.weekly_pnl_r,
       consecutive_red_days := g2.consecutive_red_days }, g2)
  else if g2.consecutive_red_days ≥ g2.max_red_days then
    ({ can_trade := false,
       reason := TripReason.redDaysHit g2.consecutive_red_days g2.max_red_days,
       action := TripAction.PAUSE, daily_pnl_r := g2.daily_pnl_r,
       weekly_pnl_r := g2.weekly_pnl_r,
       consecutive_red_days := g2.consecutive_red_days }, g2)
  else
    ({ can_trade := true, reason := TripReason.allClear,
       action := TripAction.TRADE, daily_pnl_r := g2.daily_pnl_r,
       weekly_pnl_r := g2.weekly_pnl_r,
       consecutive_red_days := g2.consecutive_red_days }, g2)

/-- Shallow embedding of `RiskGovernor.evaluate_scaling` (`governor.py`
lines 287-335), as a function of the current `$R` and the metrics: the
step-down branch fires on `profit_factor < 1.10 or current_drawdown_r <=
-4.0`; the `elif` scale-up branch fires only otherwise and only when all
five scale-up conditions hold; else `new_r` keeps `current_r`. -/
def evaluate_scaling (current_r : ℚ) (m : PerformanceMetrics) : ℚ :=
  if m.profit_factor < 11/10 ∨ m.current_drawdown_r ≤ -4 then
    current_r * (70/100)
  else if m.profit_factor ≥ 13/10 ∧ m.expected_r ≥ 2/10 ∧
      m.win_rate ≥ 1/2 ∧ m.max_drawdown_r ≤ 3 ∧ m.rule_breaks = 0 then
    current_r * (115/100)
  else
    current_r

/-- Embedding of `numpy.clip(x, lo, hi)` as used by the position sizer:
values below `lo` become `lo`, values above `hi` become `hi`. -/
def npClip (x lo hi : ℚ) : ℚ :=
  min (max x lo) hi

/-- The volatility-normalization multiplier of
`PositionSizer.calculate_contracts` (`position_sizer.py` line 103):
`np.clip(atr_baseline / atr_current, 0.67, 1.5)`. -/
def vol_adjust (atr_baseline atr_current : ℚ) : ℚ :=
  npClip (atr_baseline / atr_current) (67/100) (3/2)

/-- State of a `PositionSizer` instance
(`transmission/risk/position_sizer.py`, `PositionSizer.__init__`).
`get_point_value` models the `instrument_spec` collaborator's
`get_point_value` capability.  The `point_value` field models the Python
attribute of that name: `__init__` never assigns it, so a freshly
constructed sizer carries `none` there, and reading it raises
`AttributeError`. -/
structure PositionSizer where
  get_point_value : String → ℚ
  min_contracts : Int := 1
  max_risk_pct : ℚ := 2/100
  dll_risk_pct : ℚ := 10/100
  point_value : Option ℚ := none

/-- Constructor `PositionSizer.__init__` (`position_sizer.py` lines
29-48): sets the four attributes and nothing else; in particular it never
sets `point_value`. -/
def PositionSizer.init (svc : String → ℚ) (minContracts : Int)
    (maxRiskPct dllRiskPct : ℚ) : PositionSizer :=
  { get_point_value := svc, min_contracts := minContracts,
    max_risk_pct := maxRiskPct, dll_risk_pct := dllRiskPct,
    point_value := none }

/-- Shallow embedding of `PositionSizer.calculate_contracts`
(`position_sizer.py` lines 50-147): input guards, mental-state halving,
ATR normalization clipped to [0.67, 1.5], optional DLL and account-balance
caps, floor division by `stop_points * point_value`, and the minimum
contracts check. -/
def calculate_contracts (s : PositionSizer) (symbol : String)
    (risk_dollars stop_points atr_current atr_baseline : ℚ)
    (dll_constraint : Option ℚ) (mental_state : Int)
    (account_balance : Option ℚ) : Int :=
  if risk_dollars ≤ 0 then 0
  else if stop_points ≤ 0 then 0
  else if atr_current ≤ 0 ∨ atr_baseline ≤ 0 then 0
  else
    let adjusted_risk :=
      if mental_state < 3 then risk_dollars * (50/100) else risk_dollars
    let adjusted_risk := adjusted_risk * vol_adjust atr_baseline atr_current
    let adjusted_risk :=
      match dll_constraint with
      | some dll =>
        if dll > 0 then min adjusted_risk (dll * s.dll_risk_pct)
        else adjusted_risk
      | none => adjusted_risk
    let adjusted_risk :=
      match account_balance with
      | some bal =>
        if bal > 0 then min adjusted_risk (bal * s.max_risk_pct)
        else adjusted_risk
      | none => adjusted_risk
    let point_value := s.get_point_value symbol
    let risk_per_contract := stop_points * point_value
    if risk_per_contract ≤ 0 then 0
    else
      let contracts := ⌊adjusted_risk / risk_per_contract⌋
      if contracts < s.min_contracts then 0 else contracts

/-- Python runtime error raised by an attribute lookup on a missing
attribute. -/
inductive PyError where
  | attributeError (attr : String)
deriving DecidableEq, Repr

/-- Shallow embedding of `PositionSizer.calculate_risk_dollars`
(`position_sizer.py` lines 215-230): it evaluates
`contracts * stop_points * self.point_value`, so the attribute lookup on
`point_value` either yields the stored value or raises
`AttributeError`. -/
def calculate_risk_dollars (s : PositionSizer) (contracts : Int)
    (stop_points : ℚ) : Except PyError ℚ :=
  match s.point_value with
  | none => Except.error (PyError.attributeError ("point_value"))
  | some pv => Except.ok (contracts * stop_points * pv)

/-- Circuit breaker states
(`transmission/execution/circuit_breaker.py`, enum `CircuitState`). -/
inductive CircuitState where
  | CLOSED
  | OPEN
  | HALF_OPEN
deriving DecidableEq, Repr

/-- State of a `CircuitBreaker` instance (`circuit_breaker.py`,
`CircuitBreaker.__init__`).  Wall-clock times are rationals (seconds). -/
structure CircuitBreaker where
  failure_threshold : Nat := 5
  timeout_seconds : ℚ := 60
  state : CircuitState := CircuitState.CLOSED
  failure_count : Nat := 0
  last_failure_time : Option ℚ := none
  success_count : Nat := 0
  total_calls : Nat := 0
  total_failures : Nat := 0
  total_rejections : Nat := 0
deriving DecidableEq, Repr

/-- Embedding of `CircuitBreaker._should_attempt_reset`
(`circuit_breaker.py` lines 208-214): true when there was no failure yet,
or when at least `timeout_seconds` have elapsed since the last one. -/
def should_attempt_reset (cb : CircuitBreaker) (now : ℚ) : Bool :=
  match cb.last_failure_time with
  | none => true
  | some t => now - t ≥ cb.timeout_seconds

/-- Embedding of `CircuitBreaker._record_success` (`circuit_breaker.py`
lines 172-184): resets the consecutive-failure counter and closes the
circuit after a successful HALF_OPEN trial. -/
def record_success (cb : CircuitBreaker) : CircuitBreaker :=
  let cb := { cb with
              failure_count := 0,
              success_count := cb.success_count + 1 }
  if cb.state = CircuitState.HALF_OPEN then
    { cb with state := CircuitState.CLOSED }
  else cb

/-- Embedding of `CircuitBreaker._record_failure` (`circuit_breaker.py`
lines 186-206): bumps the counters, stamps the failure time, and opens the
circuit when the threshold is reached or when a HALF_OPEN trial fails. -/
def record_failure (cb : CircuitBreaker) (now : ℚ) : CircuitBreaker :=
  let fc := cb.failure_count + 1
  let cb := { cb with
              failure_count := fc,
              total_failures := cb.total_failures + 1,
              last_failure_time := some now }
  if fc ≥ cb.failure_threshold then
    { cb with state := CircuitState.OPEN }
  else if cb.state = CircuitState.HALF_OPEN then
    { cb with state := CircuitState.OPEN }
  else cb

/-- Outcome of one `_call_sync` invocation: the breaker rejected without
invoking the wrapped function, or the wrapped function was invoked and
succeeded, or it was invoked and raised (the exception is re-raised). -/
inductive CallOutcome where
  | rejectedOpen
  | succeeded
  | failedCall
deriving DecidableEq, Repr

/-- The try/except body of `CircuitBreaker._call_sync`
(`circuit_breaker.py` lines 157-170): the wrapped function is invoked, its
result `res` observed, and the breaker updated accordingly. -/
def attempt_wrapped (cb : CircuitBreaker) (now : ℚ)
    (res : Except Unit Unit) : CallOutcome × CircuitBreaker :=
  match res with
  | Except.ok _ => (CallOutcome.succeeded, record_success cb)
  | Except.error _ => (CallOutcome.failedCall, record_failure cb now)

/-- Shallow embedding of `CircuitBreaker._call_sync` (`circuit_breaker.py`
lines 141-170).  `now` stands for `time.time()`; `res` is the behaviour
the wrapped function would have if invoked.  In the OPEN state, when the
reset timeout has not elapsed, the call is rejected with
`CircuitBreakerOpen` and `res` is never consulted. -/
def call_sync (cb : CircuitBreaker) (now : ℚ) (res : Except Unit Unit) :
    CallOutcome × CircuitBreaker :=
  let cb := { cb with total_calls := cb.total_calls + 1 }
  if cb.state = CircuitState.OPEN then
    if should_attempt_reset cb now then
      attempt_wrapped { cb with state := CircuitState.HALF_OPEN } now res
    else
      (CallOutcome.rejectedOpen,
        { cb with total_rejections := cb.total_rejections + 1 })
  else
    attempt_wrapped cb now res

/-- A sequence of protected calls at the given times whose wrapped
function fails each time (the `expected_exception` path of
`_call_sync`). -/
def failTimes (cb : CircuitBreaker) (ts : List ℚ) : CircuitBreaker :=
  ts.foldl (fun c t => (call_sync c t (Except.error ())).2) cb

/-- Order lifecycle states (`transmission/execution/engine.py`, enum
`OrderState`). -/
inductive OrderState where
  | INIT
  | SUBMITTED
  | PARTIALLY_FILLED
  | FILLED
  | MANAGED
  | CLOSED
deriving DecidableEq, Repr

/-- Broker order response as tracked in `active_orders` (`engine.py`,
TypedDict `OrderResp`); `_handle_fill` reads only `qty`. -/
structure OrderResp where
  broker_order_id : String
  status : String
  qty : ℚ
  filled_qty : ℚ
  avg_price : ℚ
  timestamp : Nat
deriving DecidableEq, Repr

/-- Fill event dict as received by `_handle_fill` (`engine.py`).  Optional
keys read through `.get` are `Option`s; `timestamp` stands for the
datetime value. -/
structure Fill where
  fill_id : Option String
  exec_id : Option String
  timestamp : Nat
  filled_qty : ℚ
  avg_price : ℚ
deriving DecidableEq, Repr

/-- Python truthiness filter on an optional string: `None` and the empty
string are falsy, so `a or b` skips them. -/
def pyTruthyStr : Option String → Option String
  | some s => if s.isEmpty then none else some s
  | none => none

/-- Second component of a fill idempotency key: either one of the string
ids or, when both are missing or empty, the fill timestamp. -/
inductive FillKeyId where
  | strId (s : String)
  | tsId (t : Nat)
deriving DecidableEq, Repr

/-- The dedupe id computed at `engine.py` line 273:
`fill.get("fill_id") or fill.get("exec_id") or fill.get("timestamp")` —
the first truthy of the three, falling back to the timestamp. -/
def fill_dedupe_id (f : Fill) : FillKeyId :=
  match pyTruthyStr f.fill_id with
  | some s => FillKeyId.strId s
  | none =>
    match pyTruthyStr f.exec_id with
    | some s => FillKeyId.strId s
    | none => FillKeyId.tsId f.timestamp

/-- Association-list update modelling `dict[key] = value`: replaces the
binding of `k` in place or appends a fresh one. -/
def setKey {β : Type} (m : List (String × β)) (k : String) (v : β) :
    List (String × β) :=
  match m with
  | [] => [(k, v)]
  | (k0, v0) :: rest =>
    if k0 = k then (k, v) :: rest else (k0, v0) :: setKey rest k v

/-- Association-list lookup modelling `dict.get(key)`. -/
def getKey {β : Type} (m : List (String × β)) (k : String) : Option β :=
  match m with
  | [] => none
  | (k0, v0) :: rest => if k0 = k then some v0 else getKey rest k

/-- Mutable state of an `ExecutionEngine` instance (`engine.py`,
`ExecutionEngine.__init__`) together with the broker collaborator
capability `_handle_fill` may consult (`broker.get_fills`) and a log of
database writes (`_handle_fill` itself performs none). -/
structure EngineState where
  active_orders : List (String × OrderResp)
  order_states : List (String × OrderState)
  trade_ids : List (String × Nat)
  seen_fills : List (String × FillKeyId)
  brokerFills : String → List Fill
  dbLog : List String

/-- Shallow embedding of `ExecutionEngine._handle_fill` (`engine.py`
lines 260-299).  With `fill = None` the most recent broker fill is
fetched; the computed `(broker_order_id, fill_id)` key is checked against
`seen_fills` and a duplicate returns immediately; otherwise the key is
recorded, and the order state moves to PARTIALLY_FILLED or (via FILLED)
to MANAGED.  No database write occurs on any path. -/
def handle_fill (s : EngineState) (broker_order_id : String)
    (fill0 : Option Fill) : EngineState :=
  let fillOpt :=
    match fill0 with
    | some f => some f
    | none => (s.brokerFills broker_order_id).getLast?
  match fillOpt with
  | none => s
  | some fill =>
    let fid := fill_dedupe_id fill
    let key : String × FillKeyId := (broker_order_id, fid)
    if key ∈ s.seen_fills then s
    else
      let s1 := { s with seen_fills := s.seen_fills ++ [key] }
      match getKey s1.active_orders broker_order_id with
      | none => s1
      | some order =>
        if fill.filled_qty < order.qty then
          { s1 with
            order_states :=
              setKey s1.order_states broker_order_id
                OrderState.PARTIALLY_FILLED }
        else
          { s1 with
            order_states :=
              setKey s1.order_states broker_order_id OrderState.MANAGED }

/-- Capital and risk management constraints
(`transmission/risk/smart_constraints.py`, dataclass
`CapitalConstraints`). -/
structure CapitalConstraints where
  max_risk_per_trade_pct : ℚ := 1/2
  dll_fraction_per_trade : ℚ := 10/100
  max_position_size_pct : ℚ := 5
deriving DecidableEq, Repr

/-- Trading cadence constraints (`smart_constraints.py`, dataclass
`CadenceConstraints`). -/
structure CadenceConstraints where
  max_trades_per_day : Nat := 1
  max_trades_per_week : Nat := 5
  trading_sessions_ct : List String := ["08:30-11:00"]
  news_blackout_minutes : List Nat := [30, 30]
deriving DecidableEq, Repr

/-- Execution quality gate constraints (`smart_constraints.py`, dataclass
`QualityGateConstraints`). -/
structure QualityGateConstraints where
  max_spread_ticks : ℚ := 2
  max_est_slippage_ticks : ℚ := 2
  max_latency_ms : ℚ := 150
  min_liquidity_depth : ℚ := 3
deriving DecidableEq, Repr

/-- Psychology constraints (`smart_constraints.py`, dataclass
`PsychologyConstraints`). -/
structure PsychologyConstraints where
  min_mental_state : Int := 3
  post_drawdown_stepdown_r_pct : ℚ := 50
  consecutive_loss_reduction : ℚ := 75/100
deriving DecidableEq, Repr

/-- Non-bypassable system safeguardrails (`smart_constraints.py`,
dataclass `Safeguardrails`). -/
structure Safeguardrails where
  max_risk_per_trade_pct_ceiling : ℚ := 2
  dll_fraction_per_trade_ceiling : ℚ := 10/100
  auto_flat_daily_loss_r : ℚ := -2
  auto_flat_weekly_loss_r : ℚ := -5
  min_mental_state_floor : Int := 1
  max_spread_ticks_ceiling : ℚ := 5
  max_trades_per_day_ceiling : Nat := 10
deriving DecidableEq, Repr

/-- Complete user constraints configuration (`smart_constraints.py`,
dataclass `UserConstraints`). -/
structure UserConstraints where
  capital : CapitalConstraints := {}
  cadence : CadenceConstraints := {}
  quality_gates : QualityGateConstraints := {}
  psychology : PsychologyConstraints := {}
  compliance_profile : String := "generic"
  allowed_symbols : List String := ["MNQ"]
  safeguardrails : Safeguardrails := {}
deriving DecidableEq, Repr

/-- Shallow embedding of `SmartConstraintEngine._apply_safeguardrails`
(`smart_constraints.py` lines 230-261): each configured threshold is
clamped to its ceiling with `min` (or raised to its floor with `max`);
nothing is rejected and no exception is raised. -/
def apply_safeguardrails (c : UserConstraints) : UserConstraints :=
  let sg := c.safeguardrails
  { c with
    capital := { c.capital with
      max_risk_per_trade_pct :=
        min c.capital.max_risk_per_trade_pct sg.max_risk_per_trade_pct_ceiling,
      dll_fraction_per_trade :=
        min c.capital.dll_fraction_per_trade sg.dll_fraction_per_trade_ceiling },
    cadence := { c.cadence with
      max_trades_per_day :=
        min c.cadence.max_trades_per_day sg.max_trades_per_day_ceiling },
    quality_gates := { c.quality_gates with
      max_spread_ticks :=
        min c.quality_gates.max_spread_ticks sg.max_spread_ticks_ceiling },
    psychology := { c.psychology with
      min_mental_state :=
        max c.psychology.min_mental_state sg.min_mental_state_floor } }

/-- Constructed `SmartConstraintEngine` (`smart_constraints.py`,
`SmartConstraintEngine.__init__`): the loaded constraints after
safeguardrails, plus the trade counters it initialises. -/
structure SmartConstraintEngine where
  constraints : UserConstraints
  trades_today : Nat
  trades_this_week : Nat
deriving DecidableEq, Repr

/-- Shallow embedding of `SmartConstraintEngine.__init__`
(`smart_constraints.py` lines 90-126) as a function of the raw loaded
constraint configuration: it applies `_apply_safeguardrails`, zeroes the
counters, and returns normally; there is no validation step that can
fail, whatever the raw configuration contains. -/
def SmartConstraintEngine.init (loaded : UserConstraints) :
    SmartConstraintEngine :=
  { constraints := apply_safeguardrails loaded,
    trades_today := 0, trades_this_week := 0 }

/-- Violation messages produced by `ConfigLoader.validate_constraints`
(`transmission/config/config_loader.py` lines 36-85); one constructor per
formatted-string template, carrying the configured value and the ceiling
interpolated into it. -/
inductive ConstraintViolation where
  | maxRiskPct (v ceil : ℚ)
  | dllFraction (v ceil : ℚ)
  | maxTradesPerDay (v ceil : Nat)
  | maxSpreadTicks (v ceil : ℚ)
deriving DecidableEq, Repr

/-- Shallow embedding of `ConfigLoader.validate_constraints`
(`config_loader.py` lines 36-85): checks exactly four ceilings —
`max_risk_per_trade_pct`, `dll_fraction_per_trade`, `max_trades_per_day`
and `max_spread_ticks` — appending a violation message for each exceeded
one, and returns `(is_valid, violations)` with `is_valid` meaning the
list is empty.  Missing-key defaults in the Python dict lookups coincide
with the dataclass defaults of `UserConstraints`.  No floor (in
particular `min_mental_state_floor`) is checked. -/
def validate_constraints (c : UserConstraints) :
    Bool × List ConstraintViolation :=
  let sg := c.safeguardrails
  let violations :=
    (if c.capital.max_risk_per_trade_pct > sg.max_risk_per_trade_pct_ceiling
      then [ConstraintViolation.maxRiskPct c.capital.max_risk_per_trade_pct
        sg.max_risk_per_trade_pct_ceiling] else [])
    ++ (if c.capital.dll_fraction_per_trade > sg.dll_fraction_per_trade_ceiling
      then [ConstraintViolation.dllFraction c.capital.dll_fraction_per_trade
        sg.dll_fraction_per_trade_ceiling] else [])
    ++ (if c.cadence.max_trades_per_day > sg.max_trades_per_day_ceiling
      then [ConstraintViolation.maxTradesPerDay c.cadence.max_trades_per_day
        sg.max_trades_per_day_ceiling] else [])
    ++ (if c.quality_gates.max_spread_ticks > sg.max_spread_ticks_ceiling
      then [ConstraintViolation.maxSpreadTicks c.quality_gates.max_spread_ticks
        sg.max_spread_ticks_ceiling] else [])
  (violations.isEmpty, violations)

/-- Shallow embedding of the constraint-validation slice of
`TransmissionOrchestrator.__init__`
(`transmission/orchestrator/transmission.py` lines 102-108 and 126-128):
the loaded constraints are checked with
`ConfigLoader.validate_constraints`, a violation raises `ValueError`
carrying the enumerated violation list and aborts startup, and only a
valid configuration proceeds to construct the `SmartConstraintEngine`
(which on the default path loads the same constraints document). -/
def orchestrator_boot (c : UserConstraints) :
    Except (List ConstraintViolation) SmartConstraintEngine :=
  let r := validate_constraints c
  if r.1 then Except.ok (SmartConstraintEngine.init c)
  else Except.error r.2

/-- Python `str.upper()` restricted to its ASCII behaviour, which is all
the regime strings exercise
(`transmission/regime/classifier.py` uses `regime.upper()`). -/
def pyUpper (s : String) : String :=
  String.mk (s.data.map Char.toUpper)

/-- Shallow embedding of `RegimeClassifier.get_regime_multiplier`
(`classifier.py` lines 187-210): a four-entry dict lookup on the
upper-cased regime with default multiplier 1.0. -/
def get_regime_multiplier (regime : String) : ℚ :=
  let u := pyUpper regime
  if u = "TREND" then 85/100
  else if u = "RANGE" then 115/100
  else if u = "VOLATILE" then 1
  else if u = "NOTRADE" then 0
  else 1

/-- Shallow embedding of `RegimeClassifier.is_tradeable` (`classifier.py`
lines 212-222): true unless the upper-cased regime is NOTRADE. -/
def is_tradeable (regime : String) : Bool :=
  pyUpper regime ≠ "NOTRADE"

/-- Concrete context inside the REVERSE hysteresis band: daily R of -1 is
above the -1.5 reverse trigger but below the -0.5 recovery exit, and every
PARK, NEUTRAL and LOW condition is off. -/
def ctxRecoveryBand : GearContext :=
  { daily_r := -1, weekly_r := 0, consecutive_losses := 0,
    current_drawdown := 0, regime := "TREND", volatility_percentile := 0,
    mental_state := 5, dll_remaining := 1, tripwire_active := false,
    in_trading_session := true, news_blackout_active := false,
    kill_switch_active := false, positions_open := 0 }

/-- Concrete all-nominal context: DRIVE conditions, nothing adverse. -/
def ctxNominal : GearContext :=
  { daily_r := 0, weekly_r := 0, consecutive_losses := 0,
    current_drawdown := 0, regime := "TREND", volatility_percentile := 0,
    mental_state := 5, dll_remaining := 1, tripwire_active := false,
    in_trading_session := true, news_blackout_active := false,
    kill_switch_active := false, positions_open := 0 }

/-- Concrete gear machine currently in DRIVE with both collaborators
attached and empty logs. -/
def gearMachineDrive : GearMachine :=
  { cfg := {}, current_gear := GearState.DRIVE, shift_history := [],
    hasDatabase := true, dbLog := [], hasWebsocket := true,
    broadcasts := [] }

/-- Concrete metrics matching the spec scenario: profit factor 1.05 and
zero current drawdown. -/
def stepDownMetrics : PerformanceMetrics :=
  { profit_factor := 105/100, expected_r := 0, win_rate := 0,
    max_drawdown_r := 0, current_drawdown_r := 0, rule_breaks := 0,
    total_trades := 12 }

/-- Concrete risk governor whose daily P&L sits exactly at the default
daily limit and whose date and week fields are current. -/
def govAtDailyLimit : RiskGovernor :=
  { current_r := 5, daily_pnl_r := -2, weekly_pnl_r := -1,
    consecutive_red_days := 0, last_trade_date := some 100,
    week_start := some 10 }

/-- Concrete raw constraint configuration whose `max_trades_per_day` of 20
violates the default safeguardrail ceiling of 10. -/
def rawOverConfig : UserConstraints :=
  { cadence := { max_trades_per_day := 20 } }

/-- Concrete raw constraint configuration whose `min_mental_state` of 0
violates the default safeguardrail floor of 1, while every validated
ceiling is respected. -/
def floorViolConfig : UserConstraints :=
  { psychology := { min_mental_state := 0 } }

/-- C6: a single `evaluate_scaling` call never applies both adjustments:
whenever `profit_factor < 1.10` or `current_drawdown_r ≤ -4.0` the result
is exactly `current_r * 0.70`; the `1.15` scale-up happens only when no
step-down condition holds and all five scale-up conditions hold; in every
other case `current_r` is returned unchanged. -/
theorem evaluate_scaling_exclusive (cr : ℚ) (m : PerformanceMetrics) :
    (m.profit_factor < 11/10 ∨ m.current_drawdown_r ≤ -4 →
      evaluate_scaling cr m = cr * (70/100)) ∧
    (¬ (m.profit_factor < 11/10 ∨ m.current_drawdown_r ≤ -4) →
      (m.profit_factor ≥ 13/10 ∧ m.expected_r ≥ 2/10 ∧ m.win_rate ≥ 1/2 ∧
        m.max_drawdown_r ≤ 3 ∧ m.rule_breaks = 0) →
      evaluate_scaling cr m = cr * (115/100)) ∧
    (¬ (m.profit_factor < 11/10 ∨ m.current_drawdown_r ≤ -4) →
      ¬ (m.profit_factor ≥ 13/10 ∧ m.expected_r ≥ 2/10 ∧ m.win_rate ≥ 1/2 ∧
        m.max_drawdown_r ≤ 3 ∧ m.rule_breaks = 0) →
      evaluate_scaling cr m = cr) := by
  refine ⟨fun h => ?_, fun h1 h2 => ?_, fun h1 h2 => ?_⟩
  · simp [evaluate_scaling, h]
  · simp only [evaluate_scaling, if_neg h1, if_pos h2]
  · simp only [evaluate_scaling, if_neg h1, if_neg h2]

/-- C6 witness: with profit factor 1.05 and zero drawdown, scaling from
`current_r = 5` yields exactly `5 * 0.70`. -/
theorem evaluate_scaling_exclusive_witness :
    evaluate_scaling 5 stepDownMetrics = 5 * (70/100) :=
  (evaluate_scaling_exclusive 5 stepDownMetrics).1 (Or.inl (by norm_num [stepDownMetrics]))

/-- C7: for positive current and baseline ATR the sizer's
volatility-normalization multiplier lies in [0.67, 1.5], and a nonnegative
risk budget scaled by it stays between 0.67 and 1.5 times its
pre-normalization value. -/
theorem vol_adjust_bounded (atr_b atr_c risk : ℚ) (_hb : 0 < atr_b)
    (_hc : 0 < atr_c) (hr : 0 ≤ risk) :
    67/100 ≤ vol_adjust atr_b atr_c ∧ vol_adjust atr_b atr_c ≤ 3/2 ∧
    (67/100) * risk ≤ risk * vol_adjust atr_b atr_c ∧
    risk * vol_adjust atr_b atr_c ≤ (3/2) * risk := by
  have hlo : (67/100 : ℚ) ≤ vol_adjust atr_b atr_c := by
    unfold vol_adjust npClip
    exact le_min (le_max_right _ _) (by norm_num)
  have hhi : vol_adjust atr_b atr_c ≤ 3/2 := min_le_right _ _
  refine ⟨hlo, hhi, ?_, ?_⟩
  · calc (67/100 : ℚ) * risk = risk * (67/100) := by ring
    _ ≤ risk * vol_adjust atr_b atr_c := mul_le_mul_of_nonneg_left hlo hr
  · calc risk * vol_adjust atr_b atr_c ≤ risk * (3/2) :=
      mul_le_mul_of_nonneg_left hhi hr
    _ = (3/2) * risk := by ring

/-- C7 witness: at baseline ATR 1, current ATR 2 and risk budget 10 the
bounds hold. -/
theorem vol_adjust_bounded_witness :
    67/100 ≤ vol_adjust 1 2 ∧ vol_adjust 1 2 ≤ 3/2 ∧
    (67/100) * 10 ≤ 10 * vol_adjust 1 2 ∧
    10 * vol_adjust 1 2 ≤ (3/2) * 10 :=
  vol_adjust_bounded 1 2 10 (by norm_num) (by norm_num) (by norm_num)

/-- C9: `calculate_risk_dollars` on any sizer produced by
`PositionSizer.__init__` raises `AttributeError` for every input, because
`__init__` never sets the `point_value` attribute the method reads. -/
theorem calculate_risk_dollars_always_raises (svc : String → ℚ)
    (minContracts : Int) (maxRiskPct dllRiskPct : ℚ) (contracts : Int)
    (stop_points : ℚ) :
    calculate_risk_dollars
      (PositionSizer.init svc minContracts maxRiskPct dllRiskPct)
      contracts stop_points
      = Except.error (PyError.attributeError ("point_value")) := rfl

/-- C10: any regime string whose upper-cased form is none of TREND, RANGE,
VOLATILE, NOTRADE gets the full multiplier 1.0 and is treated as
tradeable. -/
theorem unknown_regime_neutral (r : String)
    (h : pyUpper r ∉ ["TREND", "RANGE", "VOLATILE", "NOTRADE"]) :
    get_regime_multiplier r = 1 ∧ is_tradeable r = true := by
  simp only [List.mem_cons, List.mem_singleton, not_or] at h
  obtain ⟨h1, h2, h3, h4⟩ := h
  constructor
  · simp [get_regime_multiplier, h1, h2, h3, h4]
  · simp [is_tradeable, h4]

/-- C10 witness: the misspelled regime string "trendy" upper-cases to
"TRENDY", gets multiplier 1 and counts as tradeable. -/
theorem unknown_regime_neutral_witness :
    get_regime_multiplier ("trendy") = 1 ∧ is_tradeable ("trendy") = true :=
  unknown_regime_neutral ("trendy") (by decide)

/-- C1 counterexample: in the recovery-band context the result of
`determine_gear` depends on the machine's current gear — a machine sitting
in REVERSE stays in REVERSE while a machine in DRIVE reports DRIVE, for
the identical context value. -/
theorem determine_gear_depends_on_current_gear :
    determine_gear {} GearState.REVERSE ctxRecoveryBand ≠
      determine_gear {} GearState.DRIVE ctxRecoveryBand := by
  have h1 : determine_gear {} GearState.REVERSE ctxRecoveryBand
      = (GearState.REVERSE, GearReason.stillInRecovery) := by
    norm_num [determine_gear, ctxRecoveryBand]
  have h2 : determine_gear {} GearState.DRIVE ctxRecoveryBand
      = (GearState.DRIVE, GearReason.allNominal) := by
    norm_num [determine_gear, ctxRecoveryBand, lowReasons]
    all_goals decide
  rw [h1, h2]
  simp

/-- C1 amended: `determine_gear` mutates nothing and is a pure function of
the pair (context, current gear); its dependence on the machine is exactly
through whether the current gear equals REVERSE, so two machines whose
current gears agree on REVERSE-membership return identical (state, reason)
results on identical contexts. -/
theorem determine_gear_pure_given_reverse_status (cfg : GearConfig)
    (g1 g2 : GearState) (ctx : GearContext)
    (h : g1 = GearState.REVERSE ↔ g2 = GearState.REVERSE) :
    determine_gear cfg g1 ctx = determine_gear cfg g2 ctx := by
  by_cases hg : g1 = GearState.REVERSE
  · have hg2 : g2 = GearState.REVERSE := h.mp hg
    simp [determine_gear, hg, hg2]
  · have hg2 : ¬ g2 = GearState.REVERSE := fun hh => hg (h.mpr hh)
    simp [determine_gear, hg, hg2]

/-- C1 witness: DRIVE and NEUTRAL machines (neither in REVERSE) agree on
the nominal context. -/
theorem determine_gear_pure_given_reverse_status_witness :
    determine_gear {} GearState.DRIVE ctxNominal =
      determine_gear {} GearState.NEUTRAL ctxNominal :=
  determine_gear_pure_given_reverse_status {} GearState.DRIVE
    GearState.NEUTRAL ctxNominal (by decide)

/-- C8: when `determine_gear` returns the machine's current gear, `shift`
returns that gear with the determination reason and leaves the machine
untouched: no history append, no database row, no broadcast. -/
theorem shift_noop_when_gear_unchanged (m : GearMachine)
    (ctx : GearContext) (ts : Nat)
    (h : (determine_gear m.cfg m.current_gear ctx).1 = m.current_gear) :
    m.shift ctx ts =
      ((m.current_gear, (determine_gear m.cfg m.current_gear ctx).2), m) := by
  simp [GearMachine.shift, h]

/-- C8 witness: the DRIVE machine on the nominal context (which
determines DRIVE) is returned unchanged by `shift`. -/
theorem shift_noop_when_gear_unchanged_witness :
    gearMachineDrive.shift ctxNominal 7 =
      ((gearMachineDrive.current_gear,
        (determine_gear gearMachineDrive.cfg gearMachineDrive.current_gear
          ctxNominal).2),
        gearMachineDrive) :=
  shift_noop_when_gear_unchanged gearMachineDrive ctxNominal 7
    (by
      norm_num [determine_gear, gearMachineDrive, ctxNominal, lowReasons]
      all_goals decide)

/-- C2: fill application is idempotent — applying the same fill (same
broker order id and dedupe id) a second time through `_handle_fill`
returns the engine state of the first application unchanged: same order
tables, same idempotency set, same database log; the duplicate is
silently absorbed. -/
theorem handle_fill_idempotent (s : EngineState) (oid : String) (f : Fill) :
    handle_fill (handle_fill s oid (some f)) oid (some f)
      = handle_fill s oid (some f) := by
  by_cases h : ((oid, fill_dedupe_id f) : String × FillKeyId) ∈ s.seen_fills
  · simp [handle_fill, h]
  · cases hg : getKey s.active_orders oid with
    | none =>
      simp [handle_fill, h, hg, List.mem_append]
    | some order =>
      by_cases hq : f.filled_qty < order.qty
      · simp [handle_fill, h, hg, hq, List.mem_append]
      · simp [handle_fill, h, hg, hq, List.mem_append]

/-- C3 counterexample: a raw configuration violating only the
`min_mental_state` safeguardrail floor (0 below the floor of 1) passes
boot-time validation — `ConfigLoader.validate_constraints` checks no
floor — so startup succeeds and the constructed engine silently clamps
the offending value up to the floor instead of failing. -/
theorem boot_accepts_floor_violation_and_clamps :
    floorViolConfig.psychology.min_mental_state
        < floorViolConfig.safeguardrails.min_mental_state_floor ∧
    orchestrator_boot floorViolConfig
        = Except.ok (SmartConstraintEngine.init floorViolConfig) ∧
    (SmartConstraintEngine.init
        floorViolConfig).constraints.psychology.min_mental_state = 1 := by
  refine ⟨by decide, ?_, by decide⟩
  norm_num [orchestrator_boot, validate_constraints, floorViolConfig]

/-- C3 amended: a raw configuration violating any of the four validated
safeguardrail ceilings (max risk percent, DLL fraction, trades per day,
spread ticks) makes boot fail hard — `TransmissionOrchestrator.__init__`
raises with the nonempty enumerated violation list from
`ConfigLoader.validate_constraints`, each violated field listed with its
value and ceiling, before any `SmartConstraintEngine` is built — while a
configuration respecting all four ceilings boots normally into the
constructed engine; the engine constructor itself never fails. -/
theorem boot_aborts_on_ceiling_violation (raw : UserConstraints) :
    ((raw.capital.max_risk_per_trade_pct
          > raw.safeguardrails.max_risk_per_trade_pct_ceiling ∨
      raw.capital.dll_fraction_per_trade
          > raw.safeguardrails.dll_fraction_per_trade_ceiling ∨
      raw.cadence.max_trades_per_day
          > raw.safeguardrails.max_trades_per_day_ceiling ∨
      raw.quality_gates.max_spread_ticks
          > raw.safeguardrails.max_spread_ticks_ceiling) →
        orchestrator_boot raw
            = Except.error (validate_constraints raw).2 ∧
        (validate_constraints raw).2 ≠ []) ∧
    (¬ (raw.capital.max_risk_per_trade_pct
          > raw.safeguardrails.max_risk_per_trade_pct_ceiling ∨
      raw.capital.dll_fraction_per_trade
          > raw.safeguardrails.dll_fraction_per_trade_ceiling ∨
      raw.cadence.max_trades_per_day
          > raw.safeguardrails.max_trades_per_day_ceiling ∨
      raw.quality_gates.max_spread_ticks
          > raw.safeguardrails.max_spread_ticks_ceiling) →
        orchestrator_boot raw
            = Except.ok (SmartConstraintEngine.init raw)) ∧
    (raw.capital.max_risk_per_trade_pct
          > raw.safeguardrails.max_risk_per_trade_pct_ceiling →
        ConstraintViolation.maxRiskPct raw.capital.max_risk_per_trade_pct
            raw.safeguardrails.max_risk_per_trade_pct_ceiling
          ∈ (validate_constraints raw).2) ∧
    (raw.capital.dll_fraction_per_trade
          > raw.safeguardrails.dll_fraction_per_trade_ceiling →
        ConstraintViolation.dllFraction raw.capital.dll_fraction_per_trade
            raw.safeguardrails.dll_fraction_per_trade_ceiling
          ∈ (validate_constraints raw).2) ∧
    (raw.cadence.max_trades_per_day
          > raw.safeguardrails.max_trades_per_day_ceiling →
        ConstraintViolation.maxTradesPerDay raw.cadence.max_trades_per_day
            raw.safeguardrails.max_trades_per_day_ceiling
          ∈ (validate_constraints raw).2) ∧
    (raw.quality_gates.max_spread_ticks
          > raw.safeguardrails.max_spread_ticks_ceiling →
        ConstraintViolation.maxSpreadTicks raw.quality_gates.max_spread_ticks
            raw.safeguardrails.max_spread_ticks_ceiling
          ∈ (validate_constraints raw).2) := by
  by_cases h1 : raw.capital.max_risk_per_trade_pct
      > raw.safeguardrails.max_risk_per_trade_pct_ceiling <;>
    by_cases h2 : raw.capital.dll_fraction_per_trade
        > raw.safeguardrails.dll_fraction_per_trade_ceiling <;>
    by_cases h3 : raw.cadence.max_trades_per_day
        > raw.safeguardrails.max_trades_per_day_ceiling <;>
    by_cases h4 : raw.quality_gates.max_spread_ticks
        > raw.safeguardrails.max_spread_ticks_ceiling <;>
    simp [orchestrator_boot, validate_constraints, h1, h2, h3, h4]

/-- C3 witness: the configuration with `max_trades_per_day = 20` (ceiling
10) makes boot abort with a nonempty enumerated violation list. -/
theorem boot_aborts_on_ceiling_violation_witness :
    orchestrator_boot rawOverConfig
        = Except.error (validate_constraints rawOverConfig).2 ∧
    (validate_constraints rawOverConfig).2 ≠ [] :=
  (boot_aborts_on_ceiling_violation rawOverConfig).1
    (Or.inr (Or.inr (Or.inl (by decide))))

/-- C4: with the default threshold of 5, five consecutive failures of the
wrapped call leave the breaker OPEN, and a sixth call made before
`timeout_seconds` (60) have elapsed since the fifth failure is rejected as
breaker-open without invoking the wrapped function (the outcome and the
whole resulting state are independent of what the wrapped function would
have returned), and the breaker stays OPEN. -/
theorem breaker_opens_after_five_failures (t1 t2 t3 t4 t5 now : ℚ)
    (res : Except Unit Unit) (h : now - t5 < 60) :
    (failTimes {} [t1, t2, t3, t4, t5]).state = CircuitState.OPEN ∧
    (call_sync (failTimes {} [t1, t2, t3, t4, t5]) now res).1
      = CallOutcome.rejectedOpen ∧
    call_sync (failTimes {} [t1, t2, t3, t4, t5]) now res
      = call_sync (failTimes {} [t1, t2, t3, t4, t5]) now (Except.ok ()) ∧
    (call_sync (failTimes {} [t1, t2, t3, t4, t5]) now res).2.state
      = CircuitState.OPEN := by
  have hr : ¬ (now - t5 ≥ (60 : ℚ)) := by linarith
  simp [failTimes, call_sync, attempt_wrapped, record_failure,
    should_attempt_reset, hr]

/-- C4 witness: failures at times 1..5 and a sixth call at time 10. -/
theorem breaker_opens_after_five_failures_witness :
    ((10 : ℚ) - 5 < 60) ∧
    ((failTimes {} [1, 2, 3, 4, 5]).state = CircuitState.OPEN ∧
     (call_sync (failTimes {} [1, 2, 3, 4, 5]) 10 (Except.error ())).1
       = CallOutcome.rejectedOpen ∧
     call_sync (failTimes {} [1, 2, 3, 4, 5]) 10 (Except.error ())
       = call_sync (failTimes {} [1, 2, 3, 4, 5]) 10 (Except.ok ()) ∧
     (call_sync (failTimes {} [1, 2, 3, 4, 5]) 10 (Except.error ())).2.state
       = CircuitState.OPEN) :=
  ⟨by norm_num,
    breaker_opens_after_five_failures 1 2 3 4 5 10 (Except.error ())
      (by norm_num)⟩

/-- C5: for a governor whose last trade date is the current date and whose
week has not rolled over, the tripwire checks run in source order — daily
limit (≤ means FLAT, so hitting the limit exactly trips), then weekly
limit (FLAT), then consecutive red days (PAUSE), else TRADE — and the
governor state is returned unchanged. -/
theorem check_tripwires_order (g : RiskGovernor) (today wsNow ws : Int)
    (hd : g.last_trade_date = some today) (hw : g.week_start = some ws)
    (hnw : ¬ wsNow > ws) :
    (g.daily_pnl_r ≤ g.daily_limit_r →
        (check_tripwires g today wsNow).1.can_trade = false ∧
        (check_tripwires g today wsNow).1.action = TripAction.FLAT) ∧
    (¬ g.daily_pnl_r ≤ g.daily_limit_r → g.weekly_pnl_r ≤ g.weekly_limit_r →
        (check_tripwires g today wsNow).1.can_trade = false ∧
        (check_tripwires g today wsNow).1.action = TripAction.FLAT) ∧
    (¬ g.daily_pnl_r ≤ g.daily_limit_r →
        ¬ g.weekly_pnl_r ≤ g.weekly_limit_r →
        g.consecutive_red_days ≥ g.max_red_days →
        (check_tripwires g today wsNow).1.can_trade = false ∧
        (check_tripwires g today wsNow).1.action = TripAction.PAUSE) ∧
    (¬ g.daily_pnl_r ≤ g.daily_limit_r →
        ¬ g.weekly_pnl_r ≤ g.weekly_limit_r →
        ¬ g.consecutive_red_days ≥ g.max_red_days →
        (check_tripwires g today wsNow).1.can_trade = true ∧
        (check_tripwires g today wsNow).1.action = TripAction.TRADE) ∧
    (check_tripwires g today wsNow).2 = g := by
  refine ⟨fun h1 => ?_, fun h1 h2 => ?_, fun h1 h2 h3 => ?_,
    fun h1 h2 h3 => ?_, ?_⟩
  · simp [check_tripwires, hd, hw, hnw, h1]
  · simp [check_tripwires, hd, hw, hnw, h1, h2]
  · simp [check_tripwires, hd, hw, hnw, h1, h2, h3]
  · simp [check_tripwires, hd, hw, hnw, h1, h2, h3]
  · simp only [check_tripwires, hd, hw]
    split_ifs <;> simp_all

/-- C5 witness: a governor with daily P&L exactly at the -2.0 limit, date
and week current, trips FLAT. -/
theorem check_tripwires_order_witness :
    (check_tripwires govAtDailyLimit 100 10).1.can_trade = false ∧
    (check_tripwires govAtDailyLimit 100 10).1.action = TripAction.FLAT :=
  (check_tripwires_order govAtDailyLimit 100 10 10 rfl rfl
    (by decide)).1 (by norm_num [govAtDailyLimit])

end Transmission
